import Mathlib

/-!
Shallow embedding of `drowsiness_cloud_service.py`: the date-partitioning
function `_get_s3_paths`, the retrying upload operations of `S3Manager`,
the `EventBuffer`, `_process_event` and `_flush_event_buffer`.

Time values (`time.time()`) are modelled as natural numbers; calendar
dates (`datetime.now()`) as a `Date` record passed explicitly; the S3
backend as a function from attempt index to success, a `false` meaning
the call raises `ClientError`; the filesystem (`os.path.exists`) as the
list of existing paths.  Events are modelled as association lists of
string keys and string values, mirroring the dict operations the code
uses (`get` with default, key assignment).
-/

/-- Calendar date as produced by `datetime.now()`, restricted to the
fields the code reads. -/
structure Date where
  year : Nat
  month : Nat
  day : Nat
deriving Repr, DecidableEq

/-- Python `f"{n:02d}"` for the non-negative numbers that occur here. -/
def pad2 (n : Nat) : String :=
  if n < 10 then "0" ++ toString n else toString n

/-- Split a character list at every occurrence of `sep`, keeping empty
pieces, so that the empty list yields one empty piece — the behavior of
Python `str.split` with a one-character separator. -/
def splitOnChar (sep : Char) : List Char → List (List Char)
  | [] => [[]]
  | c :: rest =>
    match splitOnChar sep rest with
    | [] => []
    | h :: t => if c == sep then [] :: h :: t else (c :: h) :: t

/-- Python `s.split(sep)` for a one-character separator. -/
def pySplit (s : String) (sep : Char) : List String :=
  (splitOnChar sep s.data).map (fun l => String.mk l)

/-- Python `os.path.basename` on POSIX: the part after the last slash. -/
def basename (p : String) : String :=
  (pySplit p '/').getLastD ""

/-- List `pat` is an initial segment of the second list. -/
def charsStartWith : List Char → List Char → Bool
  | [], _ => true
  | _ :: _, [] => false
  | a :: ps, b :: ss => a == b && charsStartWith ps ss

/-- List `pat` occurs contiguously somewhere in the second list. -/
def charsContain (pat : List Char) : List Char → Bool
  | [] => charsStartWith pat []
  | c :: rest => charsStartWith pat (c :: rest) || charsContain pat rest

/-- Python `pat in s` on strings: substring containment. -/
def strContains (s pat : String) : Bool :=
  charsContain pat.data s.data

/-- The fixed 12-entry month-name table of `_get_s3_paths`. -/
def month_map : List (String × String) :=
  [("Jan", "01"), ("Feb", "02"), ("Mar", "03"), ("Apr", "04"),
   ("May", "05"), ("Jun", "06"), ("Jul", "07"), ("Aug", "08"),
   ("Sep", "09"), ("Oct", "10"), ("Nov", "11"), ("Dec", "12")]

/-- Python `month_map.get(month_name, '01')`. -/
def monthLookup (month_name : String) : String :=
  ((month_map.find? (fun p => p.1 == month_name)).map (fun p => p.2)).getD "01"

/-- Current-date fallback of `_get_s3_paths`: both the `else` branch and
the `except` branch build `f"{now.year}/{now.month:02d}/{now.day:02d}"`
and prepend `snapshots/.../basename(filename)`. -/
def fallback_paths (now : Date) (filename : String) : String × String :=
  let date_path := toString now.year ++ "/" ++ pad2 now.month ++ "/" ++ pad2 now.day
  ("snapshots/" ++ date_path ++ "/" ++ basename filename, date_path)

/-- Embedding of `DrowsinessCloudService._get_s3_paths`.  The code first
evaluates `timestamp_str.split('_')[1:3][0]`, which raises `IndexError`
(caught by the blanket `except`, answered with the current-date
fallback) exactly when there are fewer than two underscore-separated
tokens.  It then tests the literal substring `'Aug27_2025'`: on a match
it derives year from the second token, month from the first three
characters of the first token via `month_map` (default `'01'`) and day
from the rest of the first token; otherwise it falls back to the
current date. -/
def get_s3_paths (now : Date) (timestamp_str filename : String) : String × String :=
  let tokens := pySplit timestamp_str '_'
  if 2 ≤ tokens.length then
    let year := tokens.getD 1 ""
    if strContains timestamp_str "Aug27_2025" then
      let t0 := tokens.getD 0 ""
      let month_name := t0.take 3
      let day := t0.drop 3
      let month := monthLookup month_name
      let date_path := year ++ "/" ++ month ++ "/" ++ day
      ("snapshots/" ++ date_path ++ "/" ++ basename filename, date_path)
    else
      fallback_paths now filename
  else
    fallback_paths now filename

/-!  The retrying upload loop shared by `S3Manager.upload_image` and
`S3Manager.upload_jsonl`: `for attempt in range(retries)` tries the S3
call, returns `True` on success, and on `ClientError` sleeps
`2 ** attempt` seconds when `attempt < retries - 1`.  After the loop it
returns `False`.  The result records the boolean outcome, the number of
S3 calls made and the list of sleep durations in order. -/

/-- Body of the retry loop, iterating over the remaining attempt
indices; `backend i = false` models the S3 call of attempt `i` raising
`ClientError`. -/
def s3_upload_loop (backend : Nat → Bool) (retries : Nat) : List Nat → Bool × Nat × List Nat
  | [] => (false, 0, [])
  | attempt :: rest =>
    if backend attempt then (true, 1, [])
    else
      let r := s3_upload_loop backend retries rest
      (r.1, r.2.1 + 1, if attempt + 1 < retries then 2 ^ attempt :: r.2.2 else r.2.2)

/-- The retry loop over `range(retries)`. -/
def run_upload (backend : Nat → Bool) (retries : Nat) : Bool × Nat × List Nat :=
  s3_upload_loop backend retries (List.range retries)

/-- Embedding of `S3Manager.upload_image`: an early `return False` when
`os.path.exists(local_path)` fails (no S3 call, no sleep), then the
retry loop.  `fs` is the set of existing local paths. -/
def upload_image (fs : List String) (local_path : String) (backend : Nat → Bool)
    (retries : Nat) : Bool × Nat × List Nat :=
  if fs.contains local_path then run_upload backend retries
  else (false, 0, [])

/-- Embedding of `S3Manager.upload_jsonl`: the same retry loop with no
existence precondition; the content and key do not influence the retry
behavior. -/
def upload_jsonl (jsonl_content s3_key : String) (backend : Nat → Bool)
    (retries : Nat) : Bool × Nat × List Nat :=
  run_upload backend retries

/-!  `EventBuffer` and the event dictionaries.  Events are association
lists of string keys and values; `time.time()` instants are naturals. -/

/-- Event dictionaries: string keys to string values, in insertion
order. -/
abbrev Event : Type := List (String × String)

/-- Python `d.get(k)`: the value at the first matching key, if any. -/
def dictLookup (d : Event) (k : String) : Option String :=
  (List.find? (fun p => p.1 == k) d).map (fun p => p.2)

/-- Python `d.get(k, dflt)`. -/
def dictGet (d : Event) (k dflt : String) : String :=
  (dictLookup d k).getD dflt

/-- Python `d[k] = v`: overwrite in place when the key is present,
append otherwise. -/
def dictSet (d : Event) (k v : String) : Event :=
  if List.any d (fun p => p.1 == k) then
    List.map (fun p => if p.1 == k then (k, v) else p) d
  else d ++ [(k, v)]

/-- State of `EventBuffer`; the lock is modelled by every operation
being a single atomic state transition. -/
structure EventBuffer where
  events : List Event
  flush_interval : Nat
  last_flush : Nat

/-- Embedding of `EventBuffer.__init__`: empty list, `last_flush` set to
the current time. -/
def EventBuffer.mk_buffer (flush_interval now : Nat) : EventBuffer :=
  ⟨[], flush_interval, now⟩

/-- Embedding of `EventBuffer.add_event`. -/
def EventBuffer.add_event (b : EventBuffer) (event : Event) : EventBuffer :=
  { b with events := b.events ++ [event] }

/-- Embedding of `EventBuffer.should_flush`:
`(time.time() - self.last_flush) >= self.flush_interval`, a pure read. -/
def EventBuffer.should_flush (b : EventBuffer) (now : Nat) : Bool :=
  decide (b.flush_interval ≤ now - b.last_flush)

/-- Embedding of `EventBuffer.get_and_clear_events`: return a copy of
the events, clear the list and reset `last_flush` to the current time,
atomically. -/
def EventBuffer.get_and_clear_events (b : EventBuffer) (now : Nat) :
    List Event × EventBuffer :=
  (b.events, { b with events := [], last_flush := now })

/-- Embedding of `EventBuffer.get_count`. -/
def EventBuffer.get_count (b : EventBuffer) : Nat :=
  b.events.length

/-- Embedding of `DrowsinessCloudService._process_event`: read
`timestamp` and `image` with `''` defaults; when the image path is
non-empty, differs from the sentinel `'failed_to_save'` and exists,
upload it under the computed snapshot key and record the key or
`'upload_failed'` in `s3_image_path`; otherwise record
`'file_not_found'`; finally append the annotated event to the buffer. -/
def process_event (fs : List String) (backend : Nat → Bool) (now : Date)
    (b : EventBuffer) (event_data : Event) : EventBuffer :=
  let timestamp := dictGet event_data "timestamp" ""
  let image_path := dictGet event_data "image" ""
  let annotated :=
    if image_path ≠ "" ∧ image_path ≠ "failed_to_save" ∧ fs.contains image_path then
      let snapshot_key := (get_s3_paths now timestamp image_path).1
      if (upload_image fs image_path backend 3).1 then
        dictSet event_data "s3_image_path" snapshot_key
      else
        dictSet event_data "s3_image_path" "upload_failed"
    else
      dictSet event_data "s3_image_path" "file_not_found"
  b.add_event annotated

/-- Python `sep.join(parts)`. -/
def pyJoin (sep : String) : List String → String
  | [] => ""
  | [x] => x
  | x :: y :: rest => x ++ sep ++ pyJoin sep (y :: rest)

/-- Embedding of `DrowsinessCloudService._flush_event_buffer`: drain
the buffer; on an empty drain do nothing; otherwise serialize each
event with `json.dumps` (the parameter `dumps`), join with newlines
plus one trailing newline, and build the S3 key
`logs/{date_path}/events_{HHMMSS}.jsonl` where `date_path` comes from
`_get_s3_paths` on the *first* event's timestamp and `hhmmss` is the
current wall-clock time of day.  The first component is the single
`(key, body)` pair handed to `upload_jsonl`, `none` when no upload
happens. -/
def flush_event_buffer (tNow : Nat) (dNow : Date) (hhmmss : String)
    (dumps : Event → String) (b : EventBuffer) :
    Option (String × String) × EventBuffer :=
  let drained := b.get_and_clear_events tNow
  match drained.1 with
  | [] => (none, drained.2)
  | first :: _ =>
    let timestamp := dictGet first "timestamp" ""
    let date_path := (get_s3_paths dNow timestamp "").2
    let jsonl_content := pyJoin "\n" (drained.1.map dumps) ++ "\n"
    let logs_key := "logs/" ++ date_path ++ "/events_" ++ hhmmss ++ ".jsonl"
    (some (logs_key, jsonl_content), drained.2)

/-- Concatenation of records, each terminated by one newline — the
shape the specification ascribes to an archive body. -/
def concatRecords : List String → String
  | [] => ""
  | s :: rest => s ++ "\n" ++ concatRecords rest

/-! Helper lemmas. -/

lemma pyJoin_newline (l : List String) (x : String) :
    pyJoin "\n" (x :: l) ++ "\n" = concatRecords (x :: l) := by
  induction l generalizing x with
  | nil => simp [pyJoin, concatRecords, String.append_empty]
  | cons y t ih =>
    show x ++ "\n" ++ pyJoin "\n" (y :: t) ++ "\n" = x ++ "\n" ++ concatRecords (y :: t)
    rw [String.append_assoc, ih y]

lemma events_foldl_add (es : List Event) (b : EventBuffer) :
    (es.foldl EventBuffer.add_event b).events = b.events ++ es := by
  induction es generalizing b with
  | nil => simp
  | cons e t ih =>
    simp [List.foldl_cons, ih, EventBuffer.add_event]

lemma dictLookup_dictSet (d : Event) (k v : String) :
    dictLookup (dictSet d k v) k = some v := by
  induction d with
  | nil => simp [dictSet, dictLookup, List.find?]
  | cons p t ih =>
    by_cases hp : p.1 = k
    · simp [dictSet, dictLookup, List.find?, hp]
    · have hpb : (p.1 == k) = false := by simp [hp]
      have hset : dictSet (p :: t) k v = p :: dictSet t k v := by
        cases hany : t.any (fun q => q.1 == k) <;>
          simp [dictSet, List.any_cons, hpb, hany, hp]
      rw [hset]
      have hfind : List.find? (fun q => q.1 == k) (p :: dictSet t k v)
          = List.find? (fun q => q.1 == k) (dictSet t k v) := by
        simp [List.find?_cons, hpb]
      simp only [dictLookup] at ih ⊢
      rw [hfind]
      exact ih

lemma all3_iff (backend : Nat → Bool) :
    (∀ i, i < 3 → backend i = false) ↔
      (backend 0 = false ∧ backend 1 = false ∧ backend 2 = false) := by
  constructor
  · intro h
    exact ⟨h 0 (by omega), h 1 (by omega), h 2 (by omega)⟩
  · rintro ⟨h0, h1, h2⟩ i hi
    interval_cases i <;> assumption

lemma run_upload_3 (backend : Nat → Bool) :
    run_upload backend 3 =
      if backend 0 then (true, 1, [])
      else if backend 1 then (true, 2, [1])
      else if backend 2 then (true, 3, [1, 2])
      else (false, 3, [1, 2]) := by
  have hr : List.range 3 = [0, 1, 2] := by rfl
  rw [run_upload, hr]
  cases hb0 : backend 0 <;> cases hb1 : backend 1 <;> cases hb2 : backend 2 <;>
    simp [s3_upload_loop, hb0, hb1, hb2]

/-! Claim theorems. -/

/-- C1 (counterexample): the claim says every timestamp whose first
token is a month abbreviation plus day digits and whose second token is
a 4-digit year is parsed from its tokens; but for
`"Sep03_2025_10h00m00s_000"` — exactly such a timestamp — `_get_s3_paths`
falls back to the current wall-clock date (here `2099/12/31`) instead
of deriving `2025/09/03`. -/
theorem c1_counterexample :
    (get_s3_paths ⟨2099, 12, 31⟩ "Sep03_2025_10h00m00s_000" "img.jpg").2
      = "2099/12/31" ∧ "2099/12/31" ≠ "2025/09/03" := by
  constructor
  · rfl
  · decide

/-- C1 (amended): only timestamps containing the literal substring
`"Aug27_2025"` take the token-parsing branch; for those (they always
split into at least two underscore-separated tokens) the date prefix is
second token, then the month table applied to the first token's first
three characters, then the remainder of the first token — independent
of the current wall-clock date. -/
theorem c1_literal_match_parses_tokens (now : Date) (ts fn : String)
    (hsub : strContains ts "Aug27_2025" = true)
    (hlen : 2 ≤ (pySplit ts '_').length) :
    (get_s3_paths now ts fn).2 =
      (pySplit ts '_').getD 1 "" ++ "/" ++
        monthLookup (((pySplit ts '_').getD 0 "").take 3) ++ "/" ++
        ((pySplit ts '_').getD 0 "").drop 3 := by
  unfold get_s3_paths
  simp [hsub, hlen]

/-- C1 (witness): the amended theorem applied to the session timestamp
`"Aug27_2025_06h47m10s_276"`. -/
theorem c1_witness :
    strContains "Aug27_2025_06h47m10s_276" "Aug27_2025" = true ∧
    2 ≤ (pySplit "Aug27_2025_06h47m10s_276" '_').length ∧
    (get_s3_paths ⟨2099, 12, 31⟩ "Aug27_2025_06h47m10s_276" "img.jpg").2 =
      (pySplit "Aug27_2025_06h47m10s_276" '_').getD 1 "" ++ "/" ++
        monthLookup (((pySplit "Aug27_2025_06h47m10s_276" '_').getD 0 "").take 3) ++ "/" ++
        ((pySplit "Aug27_2025_06h47m10s_276" '_').getD 0 "").drop 3 :=
  ⟨rfl, by decide,
    c1_literal_match_parses_tokens ⟨2099, 12, 31⟩ "Aug27_2025_06h47m10s_276" "img.jpg"
      rfl (by decide)⟩

/-- C2: with the default three attempts, both upload operations make at
most three S3 calls; they return false exactly when all three attempts
fail; when the backend first succeeds at attempt `k < 3` they return
true after `k + 1` calls having slept `2 ^ 0, …, 2 ^ (k-1)` seconds
between consecutive attempts (so a backend failing exactly twice yields
true with the strictly increasing sleeps 1 then 2); and when all three
attempts fail they return false after three calls with sleeps 1 then 2
— never sleeping after the final failed attempt. -/
theorem c2_retry_policy (backend : Nat → Bool) (fs : List String)
    (path content key : String) (hex : fs.contains path = true) :
    (upload_image fs path backend 3).2.1 ≤ 3 ∧
    (upload_jsonl content key backend 3).2.1 ≤ 3 ∧
    ((upload_image fs path backend 3).1 = false ↔ ∀ i, i < 3 → backend i = false) ∧
    ((upload_jsonl content key backend 3).1 = false ↔ ∀ i, i < 3 → backend i = false) ∧
    (∀ k, k < 3 → (∀ i, i < k → backend i = false) → backend k = true →
      upload_image fs path backend 3 = (true, k + 1, (List.range k).map (fun i => 2 ^ i)) ∧
      upload_jsonl content key backend 3 = (true, k + 1, (List.range k).map (fun i => 2 ^ i))) ∧
    ((∀ i, i < 3 → backend i = false) →
      upload_image fs path backend 3 = (false, 3, [1, 2]) ∧
      upload_jsonl content key backend 3 = (false, 3, [1, 2])) := by
  have hmem : path ∈ fs := by simpa using hex
  have hi : upload_image fs path backend 3 = run_upload backend 3 := by
    simp [upload_image, hmem]
  have hj : upload_jsonl content key backend 3 = run_upload backend 3 := rfl
  rw [hi, hj, run_upload_3, all3_iff]
  refine ⟨?_, ?_, ?_, ?_, ?_, ?_⟩
  · cases hb0 : backend 0 <;> cases hb1 : backend 1 <;> cases hb2 : backend 2 <;>
      simp [hb0, hb1, hb2]
  · cases hb0 : backend 0 <;> cases hb1 : backend 1 <;> cases hb2 : backend 2 <;>
      simp [hb0, hb1, hb2]
  · cases hb0 : backend 0 <;> cases hb1 : backend 1 <;> cases hb2 : backend 2 <;>
      simp [hb0, hb1, hb2]
  · cases hb0 : backend 0 <;> cases hb1 : backend 1 <;> cases hb2 : backend 2 <;>
      simp [hb0, hb1, hb2]
  · intro k hk hlt hsucc
    interval_cases k
    · simp [hsucc]
    · have h0 := hlt 0 (by omega)
      simp [h0, hsucc]
      decide
    · have h0 := hlt 0 (by omega)
      have h1 := hlt 1 (by omega)
      simp [h0, h1, hsucc]
      decide
  · rintro ⟨h0, h1, h2⟩
    simp [h0, h1, h2]

/-- C2 (witness): the retry theorem applied to a backend that fails on
its first two attempts and succeeds on the third. -/
theorem c2_witness :
    upload_image ["img.jpg"] "img.jpg" (fun i => decide (2 ≤ i)) 3 = (true, 3, [1, 2]) ∧
    upload_jsonl "body" "key" (fun i => decide (2 ≤ i)) 3 = (true, 3, [1, 2]) := by
  have h := (c2_retry_policy (fun i => decide (2 ≤ i)) ["img.jpg"] "img.jpg" "body" "key"
      (by decide)).2.2.2.2.1 2 (by omega) (by decide) (by decide)
  simpa using h

/-- C3: events appended with `add_event` and then drained with
`get_and_clear_events` (one atomic transition, as the lock guarantees)
come back exactly in arrival order; afterwards `get_count` is `0` and
`last_flush` equals the drain time. -/
theorem c3_drain_arrival_order (fi t0 now : Nat) (es : List Event) :
    ((es.foldl EventBuffer.add_event (EventBuffer.mk_buffer fi t0)).get_and_clear_events now).1
        = es ∧
    ((es.foldl EventBuffer.add_event (EventBuffer.mk_buffer fi t0)).get_and_clear_events now).2.get_count
        = 0 ∧
    ((es.foldl EventBuffer.add_event (EventBuffer.mk_buffer fi t0)).get_and_clear_events now).2.last_flush
        = now := by
  refine ⟨?_, rfl, rfl⟩
  simp [EventBuffer.get_and_clear_events, events_foldl_add, EventBuffer.mk_buffer]

/-- C4: a non-empty drained batch produces exactly one archive upload,
whose body is the concatenation in arrival order of each event's
serialization terminated by a newline, and whose key is
`logs/{date_path}/events_{HHMMSS}.jsonl` with the date prefix taken
from the first event's timestamp and the `HHMMSS` part from the current
wall-clock time of day. -/
theorem c4_flush_single_archive (tNow : Nat) (dNow : Date) (hhmmss : String)
    (dumps : Event → String) (b : EventBuffer) (first : Event) (rest : List Event)
    (h : b.events = first :: rest) :
    (flush_event_buffer tNow dNow hhmmss dumps b).1 =
      some ("logs/" ++ (get_s3_paths dNow (dictGet first "timestamp" "") "").2 ++
              "/events_" ++ hhmmss ++ ".jsonl",
            concatRecords (b.events.map dumps)) := by
  unfold flush_event_buffer EventBuffer.get_and_clear_events
  simp only [h, List.map_cons]
  rw [← pyJoin_newline]

/-- C4 (witness): a two-event batch flushed at a concrete instant. -/
theorem c4_witness :
    (flush_event_buffer 1000 ⟨2099, 12, 31⟩ "064710"
        (fun e => dictGet e "timestamp" "")
        ⟨[[("timestamp", "Aug27_2025_06h47m10s_276")], [("timestamp", "t2")]], 60, 0⟩).1 =
      some ("logs/2025/08/27/events_064710.jsonl",
            "Aug27_2025_06h47m10s_276\nt2\n") := by
  have h := c4_flush_single_archive 1000 ⟨2099, 12, 31⟩ "064710"
    (fun e => dictGet e "timestamp" "")
    ⟨[[("timestamp", "Aug27_2025_06h47m10s_276")], [("timestamp", "t2")]], 60, 0⟩
    [("timestamp", "Aug27_2025_06h47m10s_276")] [[("timestamp", "t2")]] rfl
  rw [h]
  rfl

/-- C5 (counterexample): the claim says every timestamp not matching
the session-format pattern (month-abbreviation+day first token, 4-digit
year second token) is answered with the current wall-clock date; but
`"xxAug27_2025"` — whose first token `"xxAug27"` is no month
abbreviation plus day — is not answered with the current date
`2099/12/31`: the code keys on the literal substring `"Aug27_2025"` and
produces `2025/01/ug27`. -/
theorem c5_counterexample :
    (get_s3_paths ⟨2099, 12, 31⟩ "xxAug27_2025" "f.jpg").2 = "2025/01/ug27" ∧
    (get_s3_paths ⟨2099, 12, 31⟩ "xxAug27_2025" "f.jpg").2
      ≠ (fallback_paths ⟨2099, 12, 31⟩ "f.jpg").2 := by
  constructor
  · rfl
  · decide

/-- C5 (amended): every timestamp that does not contain the literal
substring `"Aug27_2025"` — in particular the well-formed ISO string
`"2025-08-27T06:47:10Z"` — is ignored entirely: the result is the
current-wall-clock-date fallback. -/
theorem c5_no_literal_uses_wall_clock (now : Date) (ts fn : String)
    (h : strContains ts "Aug27_2025" = false) :
    get_s3_paths now ts fn = fallback_paths now fn := by
  simp [get_s3_paths, h]

/-- C5 (witness): the amended theorem applied to the ISO timestamp. -/
theorem c5_witness :
    strContains "2025-08-27T06:47:10Z" "Aug27_2025" = false ∧
    get_s3_paths ⟨2099, 12, 31⟩ "2025-08-27T06:47:10Z" "a/b.jpg"
      = fallback_paths ⟨2099, 12, 31⟩ "a/b.jpg" :=
  ⟨rfl, c5_no_literal_uses_wall_clock ⟨2099, 12, 31⟩ "2025-08-27T06:47:10Z" "a/b.jpg" rfl⟩

/-- C6: on `"Aug27_2025_06h47m10s_276"` and `"img.jpg"` the function
returns date prefix `2025/08/27` and snapshot key
`snapshots/2025/08/27/img.jpg`, whatever the current date is. -/
theorem c6_example_paths (now : Date) :
    get_s3_paths now "Aug27_2025_06h47m10s_276" "img.jpg"
      = ("snapshots/2025/08/27/img.jpg", "2025/08/27") := by
  rfl

/-- C7: when the local path does not exist, `upload_image` returns
false with zero S3 calls and zero sleeps, for any backend and any retry
budget. -/
theorem c7_missing_file_short_circuits (fs : List String) (path : String)
    (backend : Nat → Bool) (retries : Nat) (h : fs.contains path = false) :
    upload_image fs path backend retries = (false, 0, []) := by
  simp only [upload_image, h]
  rfl

/-- C7 (witness): an always-succeeding backend is never consulted for a
missing file. -/
theorem c7_witness :
    ([] : List String).contains "ghost.jpg" = false ∧
    upload_image [] "ghost.jpg" (fun _ => true) 3 = (false, 0, []) :=
  ⟨rfl, c7_missing_file_short_circuits [] "ghost.jpg" (fun _ => true) 3 rfl⟩

/-- C8: with a positive flush interval, `should_flush` is false when
asked at the construction instant and at the drain instant, and in
general is true exactly when the elapsed time since `last_flush`
reaches `flush_interval`; the check reads the state and never changes
it. -/
theorem c8_should_flush_timing (fi now t : Nat) (b : EventBuffer)
    (hfi : 0 < fi) (hb : 0 < b.flush_interval) :
    (EventBuffer.mk_buffer fi now).should_flush now = false ∧
    (b.get_and_clear_events now).2.should_flush now = false ∧
    (b.should_flush t = true ↔ b.flush_interval ≤ t - b.last_flush) := by
  refine ⟨?_, ?_, ?_⟩ <;>
    simp [EventBuffer.should_flush, EventBuffer.mk_buffer,
      EventBuffer.get_and_clear_events] <;> omega

/-- C8 (witness): the timing theorem at concrete instants. -/
theorem c8_witness :
    (EventBuffer.mk_buffer 60 1000).should_flush 1000 = false ∧
    ((⟨[], 60, 500⟩ : EventBuffer).get_and_clear_events 1000).2.should_flush 1000 = false ∧
    ((⟨[], 60, 500⟩ : EventBuffer).should_flush 560 = true ↔
      (⟨[], 60, 500⟩ : EventBuffer).flush_interval ≤ 560 - (⟨[], 60, 500⟩ : EventBuffer).last_flush) :=
  c8_should_flush_timing 60 1000 560 ⟨[], 60, 500⟩ (by decide) (by decide)

/-- C9: whatever the filesystem, backend and incoming event,
`_process_event` appends exactly one event to the buffer, and that
event carries an `s3_image_path` entry whose value is the computed
snapshot key, the sentinel `upload_failed`, or the sentinel
`file_not_found`. -/
theorem c9_s3_image_path_sentinels (fs : List String) (backend : Nat → Bool)
    (now : Date) (b : EventBuffer) (ed : Event) :
    ∃ annotated v,
      (process_event fs backend now b ed).events = b.events ++ [annotated] ∧
      dictLookup annotated "s3_image_path" = some v ∧
      (v = (get_s3_paths now (dictGet ed "timestamp" "") (dictGet ed "image" "")).1 ∨
        v = "upload_failed" ∨ v = "file_not_found") := by
  unfold process_event EventBuffer.add_event
  dsimp only
  split
  · split
    · exact ⟨_, _, rfl, dictLookup_dictSet _ _ _, Or.inl rfl⟩
    · exact ⟨_, _, rfl, dictLookup_dictSet _ _ _, Or.inr (Or.inl rfl)⟩
  · exact ⟨_, _, rfl, dictLookup_dictSet _ _ _, Or.inr (Or.inr rfl)⟩

/-- C10: `_get_s3_paths` is total — embedded as a total function whose
only possible exception, the `IndexError` on fewer than two tokens, is
modelled by the caught-and-answered fallback branch — and on every
input, matching or not, the snapshot key is
`snapshots/{date_path}/{basename(filename)}` for the returned
`date_path`. -/
theorem c10_snapshot_key_shape (now : Date) (ts fn : String) :
    (get_s3_paths now ts fn).1
      = "snapshots/" ++ (get_s3_paths now ts fn).2 ++ "/" ++ basename fn := by
  by_cases h2 : 2 ≤ (pySplit ts '_').length <;>
    by_cases hs : strContains ts "Aug27_2025" = true <;>
      simp [get_s3_paths, fallback_paths, h2, hs]
